import Mathlib

/-!
# LunaWallet — shallow embedding of the wallet core

This file embeds the wallet-state operations of the LunaWallet client
(`src/luna_lib.py`, the desktop variant, and `src/web/luna_lib.py`, the web
variant) and settles the spec claims about them.

Modelling conventions:
* Python `float` amounts and timestamps are embedded as `ℚ` (the numeric
  literals in play are exact decimals, so rational arithmetic matches the
  comparisons the claims exercise).
* Python dictionaries become structures; a field read with `.get(k)` that may
  be absent or `None` becomes an `Option`; `.get(k, d)` folds in the default.
* Python sets of hashes become `List String` with membership tests; only
  membership is ever observed, so order is irrelevant.
* Network calls (`requests.get`/`.post`) are replaced by explicit parameters:
  a `fetch : Nat → Nat → List Block` function standing for
  `_get_blocks_range`, a `List Block` of already-fetched blocks, or an
  `Option Nat` broadcast status (`none` = exception raised).
* `time.time()` becomes an explicit `now : ℚ` parameter; `hashlib.sha256`
  digests become explicit `String` parameters or an injected
  `String → String` function, since only equality of digests is observed.
-/

namespace LunaWallet

/-- Ledger amounts (Python `float`), embedded as exact rationals. -/
abbrev Amount := ℚ

/-- Python `str.lower()` restricted to the ASCII addresses the wallet uses
(written over `String.data` so that it evaluates by kernel reduction). -/
def lowerStr (s : String) : String := ⟨s.data.map Char.toLower⟩

/-- Python `x or default` on an optional string: `None` and `""` are falsy. -/
def pyOr (x : Option String) (d : String) : String :=
  match x with
  | some s => if s = "" then d else s
  | none => d

/-- Python truthiness test plus case-insensitive equality:
`x and str(x).lower() == str(addr).lower()`. -/
def matchAddr (x : Option String) (addr : String) : Bool :=
  match x with
  | some s => s ≠ "" && lowerStr s == lowerStr addr
  | none => false

/-- A `TransactionRecord` as stored in `wallet["transactions"]`.
Reward records synthesized by the scanners carry no `fee`/`memo` keys; since
every reader uses `tx.get("fee", 0)` / `tx.get("memo", "")`, they are embedded
with `fee = 0`, `memo = ""`. -/
structure Tx where
  txType : String
  fromAddr : Option String
  toAddr : Option String
  amount : Amount
  fee : Amount
  timestamp : Amount
  blockHeight : Option Nat
  hash : String
  status : String
  memo : String
deriving DecidableEq, Repr

/-- A wallet record (`self.wallets[i]`). Key material, `created` and
`is_our_wallet` are omitted: no claim observes them. -/
structure Wallet where
  address : String
  label : String
  balance : Amount
  pending_send : Amount
  transactions : List Tx
deriving DecidableEq, Repr

/-- A pending-transaction entry (`self.pending_txs[i]`). -/
structure PendingEntry where
  hash : String
  fromAddr : String
  toAddr : String
  amount : Amount
  status : String
  timestamp : Amount
  txType : String
deriving DecidableEq, Repr

/-- A transaction as it appears inside a block or the mempool (as consumed).
`fromAddr`/`toAddr` stand for the already-resolved chains
`tx.get("from") or tx.get("sender")` / `tx.get("to") or tx.get("receiver")`
(`none` when both keys are absent or `None`); `amount`/`fee` fold in the
`float(tx.get(k, 0))` defaults, `memo` the `tx.get("memo", "")` default.
An absent `timestamp` defaults to the scan time in the source; it is embedded
as always present since no claim observes it. -/
structure BlockTx where
  hash : Option String
  fromAddr : Option String
  toAddr : Option String
  amount : Amount
  fee : Amount
  timestamp : Amount
  memo : String
deriving DecidableEq, Repr

/-- A block as consumed by the scanners. `reward` stands for the first
convertible value among the `reward`/`mining_reward`/`block_reward` keys
(desktop) resp. `float(block.get("reward", 0))` (web). -/
structure Block where
  index : Nat
  timestamp : Amount
  miner : Option String
  reward : Amount
  transactions : List BlockTx
deriving DecidableEq, Repr

/-- `_calculate_balance_from_transactions(transactions, address)` —
identical in `src/luna_lib.py:1866` and `src/web/luna_lib.py:805`: replay the
confirmed records (reward to the address adds, transfer from the address
subtracts `amount + fee`, transfer to the address adds), clamped at zero.
Called by the web scan; defined but never called in the desktop variant. -/
def calculateBalanceFromTransactions (transactions : List Tx) (address : String) :
    Amount :=
  let balance := transactions.foldl (fun b tx =>
    if tx.status ≠ "confirmed" then b
    else if tx.txType = "reward" && matchAddr tx.toAddr address then
      b + tx.amount
    else if matchAddr tx.fromAddr address then
      b - (tx.amount + tx.fee)
    else if matchAddr tx.toAddr address then
      b + tx.amount
    else b) 0
  max 0 balance

/-- Python `range(start, stop, step)` for a positive step. -/
def pyRange (start stop step : Nat) : List Nat :=
  (List.range ((stop - start + step - 1) / step)).map (fun i => start + i * step)

namespace Web

/-- `scan_batch_size = 50` (`src/web/luna_lib.py:225`). -/
def scanBatchSize : Nat := 50

/-- `max_blocks_per_scan = 500` (`src/web/luna_lib.py:226`). -/
def maxBlocksPerScan : Nat := 500

/-- `_process_block_for_wallet(wallet, block, known_tx_hashes)`
(`src/web/luna_lib.py:603`): synthesize a reward record when the block's miner
matches the address case-insensitively and the reward is positive, then append
every block transaction touching the address, skipping hashes already in
`known_tx_hashes`. Returns the updated wallet and known-hash set. -/
def processBlockForWallet (wallet : Wallet) (block : Block)
    (known : List String) : Wallet × List String :=
  let address := wallet.address
  let blockHeight := block.index
  let step1 : Wallet × List String :=
    match block.miner with
    | some miner =>
      if miner ≠ "" && lowerStr miner == lowerStr address && block.reward > 0 then
        let rewardTx : Tx :=
          { txType := "reward", fromAddr := some "network", toAddr := some address
            amount := block.reward, fee := 0, timestamp := block.timestamp
            blockHeight := some blockHeight
            hash := s!"reward_{blockHeight}_{miner}"
            status := "confirmed", memo := "" }
        if known.contains rewardTx.hash then (wallet, known)
        else ({ wallet with transactions := wallet.transactions ++ [rewardTx] },
              known ++ [rewardTx.hash])
      else (wallet, known)
    | none => (wallet, known)
  block.transactions.foldl (fun acc tx =>
    let (w, k) := acc
    match tx.hash with
    | none => (w, k)
    | some txHash =>
      if txHash = "" || k.contains txHash then (w, k)
      else if matchAddr tx.fromAddr address || matchAddr tx.toAddr address then
        let enhancedTx : Tx :=
          { txType := "transfer", fromAddr := tx.fromAddr, toAddr := tx.toAddr
            amount := tx.amount, fee := tx.fee, timestamp := tx.timestamp
            blockHeight := some blockHeight, hash := txHash
            status := "confirmed", memo := tx.memo }
        ({ w with transactions := w.transactions ++ [enhancedTx] },
         k ++ [txHash])
      else (w, k)) step1

/-- `_scan_wallet_blocks(wallet, start_height, end_height)`
(`src/web/luna_lib.py:571`): seed the known-hash set from the wallet's existing
transactions, fetch the range in sub-batches of `scan_batch_size` via `fetch`
(standing for `_get_blocks_range`), process each received block, then
recompute the balance from the full transaction list. Returns the updated
wallet and `blocks_scanned`. -/
def scanWalletBlocks (fetch : Nat → Nat → List Block) (wallet : Wallet)
    (startHeight endHeight : Nat) : Wallet × Nat :=
  if startHeight > endHeight then (wallet, 0)
  else
    let known := wallet.transactions.map (·.hash)
    let (w, _, scanned) :=
      (pyRange startHeight (endHeight + 1) scanBatchSize).foldl
        (fun acc batchStart =>
          let (w, k, n) := acc
          let batchEnd := min (batchStart + scanBatchSize - 1) endHeight
          let blocks := fetch batchStart batchEnd
          blocks.foldl (fun acc2 block =>
            let (w, k, n) := acc2
            let (w', k') := processBlockForWallet w block k
            (w', k', n + 1)) (w, k, n))
        (wallet, known, 0)
    ({ w with balance := calculateBalanceFromTransactions w.transactions w.address },
     scanned)

/-- One wallet's slice of `scan_blockchain` (`src/web/luna_lib.py:502-551`),
after the remote height has been obtained: decide the scan range from the
full-scan flag and the stored checkpoint (`.get('last_scanned_height', 0)`),
scan it, and update the checkpoint to `end_height` only when at least one
block was scanned. Returns the updated wallet and checkpoint. -/
def scanBlockchainWalletStep (fetch : Nat → Nat → List Block) (needsFullScan : Bool)
    (currentHeight : Nat) (wallet : Wallet) (checkpoint : Option Nat) :
    Wallet × Option Nat :=
  let lastScannedHeight := checkpoint.getD 0
  let startHeight := if needsFullScan || lastScannedHeight == 0 then 0
                     else lastScannedHeight + 1
  if currentHeight ≥ startHeight then
    let endHeight := min currentHeight (startHeight + maxBlocksPerScan - 1)
    if startHeight ≤ endHeight then
      let r := scanWalletBlocks fetch wallet startHeight endHeight
      if r.2 > 0 then (r.1, some endHeight) else (r.1, checkpoint)
    else (wallet, checkpoint)
  else (wallet, checkpoint)

end Web

namespace Desktop

/-- `_process_block_for_wallet(wallet, block, known_tx_hashes)`
(`src/luna_lib.py:1650`): like the web variant, but the reward branch tests
`miner and reward > 0` before comparing addresses, and stored transfer records
replace falsy `from`/`to` with `"unknown"`. Returns the updated wallet,
known-hash set, and the `transactions_found` flag. -/
def processBlockForWallet (wallet : Wallet) (block : Block)
    (known : List String) : Wallet × List String × Bool :=
  let address := wallet.address
  let blockHeight := block.index
  let step1 : Wallet × List String × Bool :=
    match block.miner with
    | some miner =>
      if miner ≠ "" && block.reward > 0 then
        if lowerStr miner == lowerStr address then
          let rewardTx : Tx :=
            { txType := "reward", fromAddr := some "network", toAddr := some address
              amount := block.reward, fee := 0, timestamp := block.timestamp
              blockHeight := some blockHeight
              hash := s!"reward_{blockHeight}_{miner}"
              status := "confirmed", memo := "" }
          if rewardTx.hash ≠ "" && !known.contains rewardTx.hash then
            ({ wallet with transactions := wallet.transactions ++ [rewardTx] },
             known ++ [rewardTx.hash], true)
          else (wallet, known, false)
        else (wallet, known, false)
      else (wallet, known, false)
    | none => (wallet, known, false)
  block.transactions.foldl (fun acc tx =>
    let (w, k, found) := acc
    match tx.hash with
    | none => (w, k, found)
    | some txHash =>
      if txHash = "" || k.contains txHash then (w, k, found)
      else if matchAddr tx.fromAddr address || matchAddr tx.toAddr address then
        let enhancedTx : Tx :=
          { txType := "transfer", fromAddr := some (pyOr tx.fromAddr "unknown")
            toAddr := some (pyOr tx.toAddr "unknown")
            amount := tx.amount, fee := tx.fee, timestamp := tx.timestamp
            blockHeight := some blockHeight, hash := txHash
            status := "confirmed", memo := tx.memo }
        ({ w with transactions := w.transactions ++ [enhancedTx] },
         k ++ [txHash], true)
      else (w, k, found)) step1

/-- `_scan_wallet_blocks_batch(wallet, start_height, end_height)`
(`src/luna_lib.py:1151`), applied to the block list the API returned for the
range: `known_tx_hashes` starts as a FRESH empty set (it is not seeded from
the wallet's existing transactions), and each block whose processing found a
transaction bumps both counters. Returns (wallet, blocks_scanned,
transactions_found). -/
def scanWalletBlocksBatch (wallet : Wallet) (blocks : List Block) :
    Wallet × Nat × Nat :=
  let r :=
    blocks.foldl (fun acc block =>
      let (w, k, bs, tf) := acc
      let (w', k', found) := processBlockForWallet w block k
      (w', k', if found then bs + 1 else bs, if found then tf + 1 else tf))
      (wallet, ([] : List String), 0, 0)
  (r.1, r.2.2.1, r.2.2.2)

/-- `_update_wallet_balance(wallet)` (`src/luna_lib.py:1192`) — the balance
recomputation the desktop scan actually calls: every record regardless of
status, incoming checked first, outgoing subtracts `amount` only, no clamp. -/
def updateWalletBalance (wallet : Wallet) : Wallet :=
  let balance := wallet.transactions.foldl (fun b tx =>
    if matchAddr tx.toAddr wallet.address then b + tx.amount
    else if matchAddr tx.fromAddr wallet.address then b - tx.amount
    else b) 0
  { wallet with balance := balance }

/-- The desktop per-wallet slice of `scan_blockchain`
(`src/luna_lib.py:1058-1095`): fold the per-batch block lists returned by
`_get_blockchain_range_via_api` through `_scan_wallet_blocks_batch`, then
recompute the balance with `_update_wallet_balance`. -/
def scanWallet (wallet : Wallet) (batches : List (List Block)) : Wallet :=
  updateWalletBalance
    (batches.foldl (fun w blocks => (scanWalletBlocksBatch w blocks).1) wallet)

/-- The transaction hashes of a list of blocks (`blockchain_hashes`), as
queried by string membership (`None` entries of the Python set can never
equal a pending entry's string hash). -/
def blockchainHashesOf (blocks : List Block) : List String :=
  blocks.foldl (fun s block => s ++ block.transactions.filterMap (·.hash)) []

/-- `_update_pending_transactions()` (`src/luna_lib.py:1887`), applied to the
recent blocks obtained for `[current_height - 20, current_height]`: each
pending entry found among the recent confirmed hashes flips to `"confirmed"`
and every wallet whose address is (case-sensitively) equal to the entry's
`from` gets `pending_send` reduced by the amount, floored at 0; otherwise an
entry older than one hour flips to `"failed"` with the same release. Entries
are NOT filtered by their current status, and flipped entries stay in the
list. Returns the updated wallets and pending list.  -/
def updatePendingTransactions (wallets : List Wallet)
    (pending : List PendingEntry) (recentBlocks : List Block) (now : Amount) :
    List Wallet × List PendingEntry :=
  if pending = [] then (wallets, pending)
  else
    let hashes := blockchainHashesOf recentBlocks
    pending.foldl (fun acc p =>
      let (ws, done) := acc
      if hashes.contains p.hash then
        let ws' := ws.map (fun w =>
          if w.address = p.fromAddr then
            { w with pending_send := max 0 (w.pending_send - p.amount) }
          else w)
        (ws', done ++ [{ p with status := "confirmed" }])
      else if p.timestamp < now - 3600 then
        let ws' := ws.map (fun w =>
          if w.address = p.fromAddr then
            { w with pending_send := max 0 (w.pending_send - p.amount) }
          else w)
        (ws', done ++ [{ p with status := "failed" }])
      else (ws, done ++ [p])) (wallets, [])

/-- State threaded through mempool processing: the wallet list, the watched
hash set and the pending-entry list. -/
structure MempoolState where
  wallets : List Wallet
  watched : List String
  pending : List PendingEntry
deriving DecidableEq, Repr

/-- `_process_mempool_transactions(mempool_txs, our_addresses)`
(`src/luna_lib.py:974`): for each unwatched mempool transaction touching an
owned address (case-insensitively), add its hash to the watched set; if it is
outgoing and its hash is not yet pending, append a PendingEntry whose `from`
and `to` are stored LOWERCASED; and bump `pending_send` of every wallet whose
lowercased address equals the lowercased `from`. -/
def processMempoolTransactions (st : MempoolState) (mempoolTxs : List BlockTx)
    (now : Amount) : MempoolState :=
  let ourAddresses := st.wallets.map (fun w => lowerStr w.address)
  mempoolTxs.foldl (fun st tx =>
    match tx.hash with
    | none => st
    | some txHash =>
      if txHash = "" || st.watched.contains txHash then st
      else
        let fromAddr := lowerStr (pyOr tx.fromAddr "")
        let toAddr := lowerStr (pyOr tx.toAddr "")
        if ourAddresses.contains fromAddr || ourAddresses.contains toAddr then
          let watched' := st.watched ++ [txHash]
          let pending' :=
            if ourAddresses.contains fromAddr
                && !(st.pending.map (·.hash)).contains txHash then
              st.pending ++ [{ hash := txHash, fromAddr := fromAddr
                               toAddr := toAddr, amount := tx.amount
                               status := "pending", timestamp := now
                               txType := "transfer" }]
            else st.pending
          let wallets' := st.wallets.map (fun w =>
            if lowerStr w.address = fromAddr then
              { w with pending_send := w.pending_send + tx.amount }
            else w)
          { wallets := wallets', watched := watched', pending := pending' }
        else st) st

/-- The distinct failure modes of `send_transaction`, each carrying the
figures its error message interpolates. -/
inductive SendError where
  | insufficientBalance (available required : Amount)
  | duplicateTransaction
  | balanceChanged (available required : Amount)
  | networkError (status : Nat)
  | sendFailed
deriving DecidableEq, Repr

/-- The state `send_transaction` may mutate: the sending wallet
(`self.wallets[0]`), the pending list and the watched hash set. -/
structure SendState where
  wallet : Wallet
  pending : List PendingEntry
  watched : List String
deriving DecidableEq, Repr

/-- Outcome of `send_transaction`: the returned boolean, the error surfaced
via `_handle_error` (if any), the resulting state, and whether
`save_wallet()` ran. -/
structure SendResult where
  ok : Bool
  error : Option SendError
  state : SendState
  saved : Bool
deriving DecidableEq, Repr

/-- The fixed fee buffer `0.00001` used by `send_transaction`. -/
def fixedFee : Amount := 1 / 100000

/-- `send_transaction(to_address, amount, memo, password)`
(`src/luna_lib.py:1942`), from the point after the preliminary incremental
scan: balance check against `amount + 0.00001`, duplicate-pending check in a
300-second window, a second balance check, then the broadcast.  `txHash`
stands for the sha256 digest of the canonical transaction JSON;
`broadcastStatus` is the HTTP status of `POST /mempool/add` (`none` = the
request raised).  Only the accepted status 201 appends the pending entry,
reserves `pending_send`, adds the hash to the watched set and persists. -/
def sendTransaction (st : SendState) (toAddress : String) (amount : Amount)
    (now : Amount) (txHash : String) (broadcastStatus : Option Nat) :
    SendResult :=
  let wallet := st.wallet
  let availableBalance := wallet.balance - wallet.pending_send
  let requiredAmount := amount + fixedFee
  if availableBalance < requiredAmount then
    { ok := false
      error := some (.insufficientBalance availableBalance requiredAmount)
      state := st, saved := false }
  else if st.pending.any (fun p =>
      p.fromAddr == wallet.address && p.toAddr == toAddress
        && p.amount == amount && p.status == "pending"
        && now - p.timestamp < 300) then
    { ok := false, error := some .duplicateTransaction, state := st
      saved := false }
  else
    -- final re-check before broadcast (`final_available`); the wallet is not
    -- mutated between the two reads in this embedding, so it reads the same
    -- figures
    let finalAvailable := wallet.balance - wallet.pending_send
    if finalAvailable < requiredAmount then
      { ok := false
        error := some (.balanceChanged finalAvailable requiredAmount)
        state := st, saved := false }
    else
      match broadcastStatus with
      | some status =>
        if status = 201 then
          { ok := true, error := none
            state :=
              { wallet := { wallet with pending_send := wallet.pending_send + amount }
                pending := st.pending ++
                  [{ hash := txHash, fromAddr := wallet.address
                     toAddr := toAddress, amount := amount, status := "pending"
                     timestamp := now, txType := "transfer" }]
                watched := st.watched ++ [txHash] }
            saved := true }
        else
          { ok := false, error := some (.networkError status), state := st
            saved := false }
      | none =>
        { ok := false, error := some .sendFailed, state := st, saved := false }

/-- The private-key validity check of `import_wallet`
(`src/luna_lib.py:703`): exactly 64 characters, all hex digits after
lowercasing. -/
def isValidPrivateKey (k : String) : Bool :=
  k.length == 64
    && (lowerStr k).data.all (fun c => "0123456789abcdef".data.contains c)

/-- Python `address[-8:]`. -/
def lastEight (s : String) : String :=
  ⟨s.data.drop (s.data.length - 8)⟩

/-- The derived address `f"LUN_{public_key[:16]}_{suffix}"` of
`import_wallet`, where `hashHex` stands for
`hashlib.sha256(..).hexdigest()` and `suffix` for the fresh
`secrets.token_hex(4)` draw. -/
def importAddress (hashHex : String → String) (privateKeyHex suffix : String) :
    String :=
  "LUN_" ++ (hashHex privateKeyHex).take 16 ++ "_" ++ suffix

/-- The wallet record `import_wallet` appends on success. -/
def importedWallet (hashHex : String → String)
    (privateKeyHex label suffix : String) : Wallet :=
  { address := importAddress hashHex privateKeyHex suffix
    label := if label = "" then
        "Imported_" ++ lastEight (importAddress hashHex privateKeyHex suffix)
      else label
    balance := 0, pending_send := 0, transactions := [] }

/-- `import_wallet(private_key_hex, label)` (`src/luna_lib.py:697`):
validate the key, derive `address = f"LUN_{public_key[:16]}_{suffix}"`,
reject only when the FULL address already occurs in the wallet list, else
append a fresh wallet record. Returns the boolean result and the wallet
list. -/
def importWallet (hashHex : String → String) (isUnlocked : Bool)
    (wallets : List Wallet) (privateKeyHex label suffix : String) :
    Bool × List Wallet :=
  if !isUnlocked then (false, wallets)
  else if !isValidPrivateKey privateKeyHex then (false, wallets)
  else
    let address := importAddress hashHex privateKeyHex suffix
    if wallets.any (fun w => w.address == address) then (false, wallets)
    else
      (true, wallets ++ [importedWallet hashHex privateKeyHex label suffix])

end Desktop

namespace Web

/-- `_update_pending_transactions(blockchain)` (`src/web/luna_lib.py:826`):
the web variant of the reconciliation.  A pending hash found among the given
blocks' transaction hashes flips to `"confirmed"` WITHOUT touching
`pending_send`; only the timeout branch (older than one hour) releases the
reservation, again matching the wallet case-sensitively. -/
def updatePendingTransactions (wallets : List Wallet)
    (pending : List PendingEntry) (blockchain : List Block) (now : Amount) :
    List Wallet × List PendingEntry :=
  let hashes := Desktop.blockchainHashesOf blockchain
  pending.foldl (fun acc p =>
    let (ws, done) := acc
    if hashes.contains p.hash then
      (ws, done ++ [{ p with status := "confirmed" }])
    else if p.timestamp < now - 3600 then
      let ws' := ws.map (fun w =>
        if w.address = p.fromAddr then
          { w with pending_send := max 0 (w.pending_send - p.amount) }
        else w)
      (ws', done ++ [{ p with status := "failed" }])
    else (ws, done ++ [p])) (wallets, [])

end Web

/-! ## Spec-side definitions (for refinement comparisons) -/

/-- The start-height rule exactly as the spec states it: 0 when a full scan
is forced or due or no checkpoint exists, otherwise the checkpoint's
`lastScannedHeight + 1`. -/
def specStartHeightOriginal (fullScan : Bool) (checkpoint : Option Nat) : Nat :=
  match fullScan, checkpoint with
  | true, _ => 0
  | false, none => 0
  | false, some lastScanned => lastScanned + 1

/-- The amended start-height rule that the web scanner implements: 0 when a
full scan is forced or due, or when the stored `lastScannedHeight` is 0
(which also covers a missing checkpoint); otherwise `lastScannedHeight + 1`. -/
def specStartHeightAmended (fullScan : Bool) (checkpoint : Option Nat) : Nat :=
  if fullScan || checkpoint.getD 0 == 0 then 0 else checkpoint.getD 0 + 1

/-! ## Concrete fixtures used by witnesses and counterexamples -/

/-- A fresh wallet for concrete evaluations. -/
def mkWallet (address : String) (balance pending : Amount) (txs : List Tx) :
    Wallet :=
  { address := address, label := "", balance := balance
    pending_send := pending, transactions := txs }

/-- A 64-character hexadecimal private key for concrete import runs. -/
def c10Key : String :=
  "00112233445566778899aabbccddeeff00112233445566778899aabbccddeeff"

/-- An empty block at height 0 (no miner, no transactions). -/
def c4Block : Block :=
  { index := 0, timestamp := 0, miner := none, reward := 0, transactions := [] }

/-- A wallet whose checkpoint already sits at height 600. -/
def c4Wallet : Wallet := mkWallet "LUN_c4" 0 0 []

/-- A block-0 transfer of 5 to `LUN_C5` with hash `c5h`. -/
def c5Block : Block :=
  { index := 0, timestamp := 0, miner := none, reward := 0
    transactions := [{ hash := some "c5h", fromAddr := some "LUN_other"
                       toAddr := some "LUN_C5", amount := 5, fee := 0
                       timestamp := 0, memo := "" }] }

/-- The wallet owning `LUN_C5`, with an existing checkpoint at height 0. -/
def c5Wallet : Wallet := mkWallet "LUN_C5" 0 0 []

/-- A wallet that has not yet recorded any transaction for `LUN_C1`. -/
def c1Wallet : Wallet := mkWallet "LUN_C1" 0 0 []

/-- Block 120 with one transfer of 5 to `LUN_C1`, hash `abc`. -/
def c1Block : Block :=
  { index := 120, timestamp := 0, miner := none, reward := 0
    transactions := [{ hash := some "abc", fromAddr := some "LUN_other"
                       toAddr := some "LUN_C1", amount := 5, fee := 0
                       timestamp := 0, memo := "" }] }

/-- A confirmed transfer of 5 with fee 1 sent FROM `LUN_C2`. -/
def c2Tx : Tx :=
  { txType := "transfer", fromAddr := some "LUN_C2", toAddr := some "LUN_X"
    amount := 5, fee := 1, timestamp := 0, blockHeight := some 1
    hash := "c2h", status := "confirmed", memo := "" }

/-- The wallet owning `LUN_C2`, holding only `c2Tx`. -/
def c2Wallet : Wallet := mkWallet "LUN_C2" 0 0 [c2Tx]

/-- A wallet with 8 units reserved against two outgoing pending sends. -/
def c3Wallet : Wallet := mkWallet "LUN_C3" 20 8 []

/-- Pending entry for an outgoing send of 3, hash `h1`. -/
def c3P1 : PendingEntry :=
  { hash := "h1", fromAddr := "LUN_C3", toAddr := "LUN_Y", amount := 3
    status := "pending", timestamp := 0, txType := "transfer" }

/-- Pending entry for an outgoing send of 5, hash `h2`. -/
def c3P2 : PendingEntry :=
  { hash := "h2", fromAddr := "LUN_C3", toAddr := "LUN_Y", amount := 5
    status := "pending", timestamp := 0, txType := "transfer" }

/-- A recent block confirming hash `h1`. -/
def c3Block : Block :=
  { index := 10, timestamp := 0, miner := none, reward := 0
    transactions := [{ hash := some "h1", fromAddr := some "LUN_C3"
                       toAddr := some "LUN_Y", amount := 3, fee := 0
                       timestamp := 0, memo := "" }] }

/-- A wallet that has not yet recorded any transaction for `LUN_C8`. -/
def c8Wallet : Wallet := mkWallet "LUN_C8" 0 0 []

/-- Block 7 mined by `LUN_C8` with reward 50 and no transactions. -/
def c8Block : Block :=
  { index := 7, timestamp := 0, miner := some "LUN_C8", reward := 50
    transactions := [] }

/-- The wallet owning the mixed-case address `LUN_C9`. -/
def c9Wallet : Wallet := mkWallet "LUN_C9" 10 0 []

/-- A mempool transfer of 3 sent from `LUN_C9`, hash `p9`. -/
def c9MempoolTx : BlockTx :=
  { hash := some "p9", fromAddr := some "LUN_C9", toAddr := some "LUN_Z"
    amount := 3, fee := 0, timestamp := 0, memo := "" }

/-- A recent block confirming hash `p9`. -/
def c9Block : Block :=
  { index := 3, timestamp := 0, miner := none, reward := 0
    transactions := [{ hash := some "p9", fromAddr := some "LUN_C9"
                       toAddr := some "LUN_Z", amount := 3, fee := 0
                       timestamp := 0, memo := "" }] }

/-! ## Claim theorems -/

/-- Appending to a common front string is injective. -/
theorem string_append_left_cancel {p a b : String} (h : p ++ a = p ++ b) :
    a = b := by
  have hd := congrArg String.data h
  simp only [String.data_append] at hd
  exact String.ext (List.append_cancel_left hd)

/-- A wallet list with no occurrence of an address fails the `any` duplicate
test of `import_wallet`. -/
theorem any_address_eq_false {l : List Wallet} {a : String}
    (h : ∀ w ∈ l, w.address ≠ a) :
    (l.any fun w => w.address == a) = false := by
  cases hb : l.any fun w => w.address == a with
  | false => rfl
  | true =>
    obtain ⟨w, hw, hbw⟩ := List.any_eq_true.mp hb
    exact absurd (eq_of_beq hbw) (h w hw)

/-- Evaluation of a successful `import_wallet` call: valid key, unlocked,
and no wallet already carries the derived address. -/
theorem importWallet_success (hashHex : String → String) (wallets : List Wallet)
    (key label suffix : String)
    (hkey : Desktop.isValidPrivateKey key = true)
    (hno : ∀ w ∈ wallets, w.address ≠ Desktop.importAddress hashHex key suffix) :
    Desktop.importWallet hashHex true wallets key label suffix =
      (true, wallets ++ [Desktop.importedWallet hashHex key label suffix]) := by
  simp only [Desktop.importWallet, hkey, any_address_eq_false hno,
    Bool.not_true, Bool.false_eq_true, if_false, ite_true, ite_false]

/-- Distinct suffixes give distinct derived import addresses. -/
theorem importAddress_ne (hashHex : String → String) (key : String)
    {s1 s2 : String} (hs : s1 ≠ s2) :
    Desktop.importAddress hashHex key s1 ≠ Desktop.importAddress hashHex key s2 :=
  fun he => hs (string_append_left_cancel he)

/-- **C10** — importing the same valid private key twice succeeds both times
and appends two distinct wallet entries whenever the two random address
suffixes differ: the duplicate check compares full addresses, which embed the
random suffix, so re-importing an already-imported key is not rejected and is
not idempotent. -/
theorem c10_reimport_same_key_appends_second_wallet
    (hashHex : String → String) (wallets : List Wallet)
    (key label s1 s2 : String)
    (hkey : Desktop.isValidPrivateKey key = true)
    (hs : s1 ≠ s2)
    (h1 : ∀ w ∈ wallets, w.address ≠ Desktop.importAddress hashHex key s1)
    (h2 : ∀ w ∈ wallets, w.address ≠ Desktop.importAddress hashHex key s2) :
    (Desktop.importWallet hashHex true wallets key label s1).1 = true ∧
    (Desktop.importWallet hashHex true
      (Desktop.importWallet hashHex true wallets key label s1).2
      key label s2).1 = true ∧
    (Desktop.importWallet hashHex true
      (Desktop.importWallet hashHex true wallets key label s1).2
      key label s2).2 =
      wallets ++ [Desktop.importedWallet hashHex key label s1,
        Desktop.importedWallet hashHex key label s2] ∧
    (Desktop.importedWallet hashHex key label s1).address ≠
      (Desktop.importedWallet hashHex key label s2).address := by
  have hA := importAddress_ne hashHex key hs
  have hr1 := importWallet_success hashHex wallets key label s1 hkey h1
  have h2' : ∀ w ∈ wallets ++ [Desktop.importedWallet hashHex key label s1],
      w.address ≠ Desktop.importAddress hashHex key s2 := by
    intro w hw
    rcases List.mem_append.mp hw with hw' | hw'
    · exact h2 w hw'
    · rcases List.mem_singleton.mp hw' with rfl
      exact hA
  have hr2 := importWallet_success hashHex
    (wallets ++ [Desktop.importedWallet hashHex key label s1]) key label s2
    hkey h2'
  refine ⟨by rw [hr1], ?_, ?_, hA⟩
  · rw [hr1, hr2]
  · rw [hr1, hr2]
    simp

/-- Witness for C10: importing one concrete key twice with suffixes `"aa"`
and `"bb"` into an empty wallet list yields two wallets with distinct
addresses. -/
theorem c10_reimport_same_key_appends_second_wallet_witness :
    Desktop.isValidPrivateKey c10Key = true ∧ ("aa" : String) ≠ "bb" ∧
    ((Desktop.importWallet (fun k => k) true [] c10Key "L" "aa").1 = true ∧
     (Desktop.importWallet (fun k => k) true
       (Desktop.importWallet (fun k => k) true [] c10Key "L" "aa").2
       c10Key "L" "bb").1 = true ∧
     (Desktop.importWallet (fun k => k) true
       (Desktop.importWallet (fun k => k) true [] c10Key "L" "aa").2
       c10Key "L" "bb").2 =
       [] ++ [Desktop.importedWallet (fun k => k) c10Key "L" "aa",
         Desktop.importedWallet (fun k => k) c10Key "L" "bb"] ∧
     (Desktop.importedWallet (fun k => k) c10Key "L" "aa").address ≠
       (Desktop.importedWallet (fun k => k) c10Key "L" "bb").address) :=
  ⟨by decide, by decide,
   c10_reimport_same_key_appends_second_wallet (fun k => k) [] c10Key "L"
     "aa" "bb" (by decide) (by decide) (by simp) (by simp)⟩

/-- **C4 (counterexample)** — the claim that `lastScannedHeight` is
non-decreasing across successful scans is false: a wallet whose checkpoint
sits at 600 undergoes a forced full scan at remote height 700, and because
the full scan restarts at 0 with the 500-block cap, the persisted checkpoint
drops to `min 700 499 = 499 < 600`. -/
theorem c4_full_rescan_lowers_checkpoint :
    (Web.scanBlockchainWalletStep (fun _ _ => [c4Block]) true 700 c4Wallet
      (some 600)).2 = some 499 ∧ ¬ (600 ≤ 499) := by
  constructor
  · decide
  · decide

/-- **C4 (amended)** — for the checkpointed (web) scanner: provided the
stored checkpoint does not exceed the remote height obtained at the start of
the invocation, the checkpoint persisted by the invocation still does not
exceed that height; and whenever no full scan is forced or due, the
checkpoint is non-decreasing.  A forced or due full scan may instead lower it
to `min currentHeight (maxBlocksPerScan - 1)` (the capped full rescan resumes
from there on later invocations). -/
theorem c4_amended_checkpoint_bounds (fetch : Nat → Nat → List Block)
    (needsFullScan : Bool) (currentHeight : Nat) (wallet : Wallet)
    (checkpoint : Option Nat)
    (hcp : checkpoint.getD 0 ≤ currentHeight) :
    ((Web.scanBlockchainWalletStep fetch needsFullScan currentHeight wallet
        checkpoint).2.getD 0 ≤ currentHeight) ∧
    (needsFullScan = false →
      checkpoint.getD 0 ≤
        (Web.scanBlockchainWalletStep fetch needsFullScan currentHeight wallet
          checkpoint).2.getD 0) := by
  unfold Web.scanBlockchainWalletStep
  dsimp only
  split_ifs
  all_goals refine ⟨?_, fun hnf => ?_⟩
  all_goals simp_all [Web.maxBlocksPerScan]

/-- Witness for the amended C4: an incremental invocation at checkpoint 3 and
remote height 5 that receives no blocks keeps the checkpoint at 3, within
bounds. -/
theorem c4_amended_checkpoint_bounds_witness :
    ((some 3 : Option Nat).getD 0 ≤ 5) ∧
    (((Web.scanBlockchainWalletStep (fun _ _ => []) false 5
        (mkWallet "LUN_c4w" 0 0 []) (some 3)).2.getD 0 ≤ 5) ∧
     (false = false →
       (some 3 : Option Nat).getD 0 ≤
         (Web.scanBlockchainWalletStep (fun _ _ => []) false 5
           (mkWallet "LUN_c4w" 0 0 []) (some 3)).2.getD 0)) :=
  ⟨by decide,
   c4_amended_checkpoint_bounds (fun _ _ => []) false 5
     (mkWallet "LUN_c4w" 0 0 []) (some 3) (by decide)⟩

/-- **C5 (counterexample)** — the claim's start rule says a wallet with an
existing checkpoint and no full scan due starts at `lastScannedHeight + 1`;
but for a stored `lastScannedHeight` of 0 (every freshly created wallet) the
code starts at 0: at remote height 0 the claim start 1 exceeds the end height
0, so the claim predicts no blocks processed, yet the scan appends the
transaction of block 0. -/
theorem c5_checkpoint_zero_scans_from_zero :
    specStartHeightOriginal false (some 0) = 1 ∧ ¬ ((1 : Nat) ≤ 0) ∧
    ((Web.scanBlockchainWalletStep (fun _ _ => [c5Block]) false 0 c5Wallet
        (some 0)).1.transactions.map (·.hash)) = ["c5h"] := by
  refine ⟨rfl, by decide, ?_⟩
  decide

/-- **C5 (amended)** — for the checkpointed (web) scanner: the start height
is 0 when a full scan is forced or due or the stored `lastScannedHeight` is 0
(which covers a missing checkpoint), and `lastScannedHeight + 1` otherwise;
when the start exceeds the remote height nothing is processed and nothing
changes; otherwise the scan covers exactly
`[start, min currentHeight (start + maxBlocksPerScan - 1)]` and persists that
end height as the checkpoint when any block was scanned. -/
theorem c5_amended_scan_range (fetch : Nat → Nat → List Block)
    (needsFullScan : Bool) (currentHeight : Nat) (wallet : Wallet)
    (checkpoint : Option Nat) :
    (currentHeight < specStartHeightAmended needsFullScan checkpoint →
      Web.scanBlockchainWalletStep fetch needsFullScan currentHeight wallet
          checkpoint = (wallet, checkpoint)) ∧
    (specStartHeightAmended needsFullScan checkpoint ≤ currentHeight →
      Web.scanBlockchainWalletStep fetch needsFullScan currentHeight wallet
          checkpoint =
        (if (Web.scanWalletBlocks fetch wallet
              (specStartHeightAmended needsFullScan checkpoint)
              (min currentHeight
                (specStartHeightAmended needsFullScan checkpoint +
                  Web.maxBlocksPerScan - 1))).2 > 0 then
          ((Web.scanWalletBlocks fetch wallet
              (specStartHeightAmended needsFullScan checkpoint)
              (min currentHeight
                (specStartHeightAmended needsFullScan checkpoint +
                  Web.maxBlocksPerScan - 1))).1,
           some (min currentHeight
             (specStartHeightAmended needsFullScan checkpoint +
               Web.maxBlocksPerScan - 1)))
        else
          ((Web.scanWalletBlocks fetch wallet
              (specStartHeightAmended needsFullScan checkpoint)
              (min currentHeight
                (specStartHeightAmended needsFullScan checkpoint +
                  Web.maxBlocksPerScan - 1))).1,
           checkpoint))) := by
  by_cases hc : (needsFullScan || checkpoint.getD 0 == 0) = true
  · have hval : (if needsFullScan || checkpoint.getD 0 == 0 then 0
        else checkpoint.getD 0 + 1) = 0 := by simp [hc]
    have hstart : specStartHeightAmended needsFullScan checkpoint = 0 := by
      simp [specStartHeightAmended, hc]
    constructor
    · intro h
      rw [hstart] at h
      omega
    · intro _
      rw [hstart]
      simp only [Web.scanBlockchainWalletStep]
      rw [hval, if_pos (Nat.zero_le _), if_pos (Nat.zero_le _)]
  · have hc' : (needsFullScan || checkpoint.getD 0 == 0) = false :=
      Bool.eq_false_iff.mpr (fun he => hc he)
    have hval : (if needsFullScan || checkpoint.getD 0 == 0 then 0
        else checkpoint.getD 0 + 1) = checkpoint.getD 0 + 1 := by simp [hc']
    have hstart : specStartHeightAmended needsFullScan checkpoint =
        checkpoint.getD 0 + 1 := by simp [specStartHeightAmended, hc']
    constructor
    · intro h
      rw [hstart] at h
      simp only [Web.scanBlockchainWalletStep]
      rw [hval, if_neg (by omega)]
    · intro h
      rw [hstart] at h
      rw [hstart]
      simp only [Web.scanBlockchainWalletStep]
      rw [hval, if_pos (by omega),
        if_pos (le_min (by omega) (by simp only [Web.maxBlocksPerScan]; omega))]

/-- Witness for the amended C5: with checkpoint 10 and remote height 5 the
start height 11 exceeds the height, and the invocation changes nothing. -/
theorem c5_amended_scan_range_witness :
    (5 < specStartHeightAmended false (some 10)) ∧
    Web.scanBlockchainWalletStep (fun _ _ => []) false 5
        (mkWallet "LUN_c5w" 0 0 []) (some 10) =
      (mkWallet "LUN_c5w" 0 0 [], some 10) :=
  ⟨by decide,
   (c5_amended_scan_range (fun _ _ => []) false 5 (mkWallet "LUN_c5w" 0 0 [])
     (some 10)).1 (by decide)⟩

/-- **C1** — the claim that scanning the same block range twice never leaves
two TransactionRecords with the same hash fails for the desktop scanner:
`_scan_wallet_blocks_batch` starts each batch with a FRESH empty
`known_tx_hashes` set instead of seeding it from the wallet's existing
transactions, so re-scanning block 120 re-appends the transfer with hash
`abc`.  The web scanner seeds the set from the wallet and is idempotent on
the same input. -/
theorem c1_desktop_rescan_duplicates_transfer :
    ((Desktop.scanWalletBlocksBatch
        (Desktop.scanWalletBlocksBatch c1Wallet [c1Block]).1
        [c1Block]).1.transactions.map (·.hash)) = ["abc", "abc"] ∧
    ((Web.scanWalletBlocks (fun _ _ => [c1Block])
        ((Web.scanWalletBlocks (fun _ _ => [c1Block]) c1Wallet 120 120).1)
        120 120).1.transactions.map (·.hash)) = ["abc"] := by
  constructor
  · decide
  · decide

/-- **C8** — the synthesized reward hash is exactly `reward_{H}_{M}` in both
scanners, but the uniqueness half of the claim fails for the desktop scanner:
because `_scan_wallet_blocks_batch` starts each batch with a fresh empty
known-hash set, re-processing block 7 appends a second reward record for the
same (7, `LUN_C8`) pair.  The web scanner never appends a second one. -/
theorem c8_desktop_rescan_duplicates_reward :
    ((Desktop.scanWalletBlocksBatch c8Wallet [c8Block]).1.transactions.map
        (·.hash)) = ["reward_7_LUN_C8"] ∧
    ((Desktop.scanWalletBlocksBatch
        (Desktop.scanWalletBlocksBatch c8Wallet [c8Block]).1
        [c8Block]).1.transactions.map (·.hash))
      = ["reward_7_LUN_C8", "reward_7_LUN_C8"] ∧
    ((Web.scanWalletBlocks (fun _ _ => [c8Block])
        ((Web.scanWalletBlocks (fun _ _ => [c8Block]) c8Wallet 7 7).1)
        7 7).1.transactions.map (·.hash)) = ["reward_7_LUN_C8"] := by
  refine ⟨by decide, by decide, by decide⟩

/-- **C2** — the claim that the balance after a scan replays exactly the
confirmed transactions (fee-inclusive, clamped at zero) fails for the
desktop scanner: its scan path calls `_update_wallet_balance`, which ignores
`status` and `fee` and does not clamp, so a wallet holding one confirmed
outgoing transfer of 5 with fee 1 ends a scan at balance `-5`, while the
claimed replay (the source's own `_calculate_balance_from_transactions`,
which the desktop variant defines but never calls) gives `max 0 (-6) = 0`,
the value the web scan produces. -/
theorem c2_desktop_scan_balance_diverges_from_confirmed_replay :
    (Desktop.scanWallet c2Wallet [[]]).balance = -5 ∧
    calculateBalanceFromTransactions c2Wallet.transactions c2Wallet.address
      = 0 ∧
    (Web.scanWalletBlocks (fun _ _ => []) c2Wallet 0 0).1.balance = 0 := by
  have hto : matchAddr (some "LUN_X") "LUN_C2" = false := by decide
  have hfrom : matchAddr (some "LUN_C2") "LUN_C2" = true := by decide
  refine ⟨?_, ?_, ?_⟩
  · simp [Desktop.scanWallet, Desktop.scanWalletBlocksBatch,
      Desktop.updateWalletBalance, c2Wallet, c2Tx, mkWallet, hto, hfrom]
  · simp [calculateBalanceFromTransactions, c2Wallet, c2Tx, mkWallet, hto,
      hfrom]
    norm_num [max_def]
  · simp [Web.scanWalletBlocks, calculateBalanceFromTransactions, pyRange,
      Web.scanBatchSize, c2Wallet, c2Tx, mkWallet, hto, hfrom]
    norm_num [max_def]

/-- **C3** — the claim that `pending_send` is released exactly once on a
pending entry's confirm or fail is violated: `_update_pending_transactions`
never filters entries by status and leaves flipped entries in the list, so a
second reconciliation pass over the same recent blocks releases the same
reservation again (8 → 5 → 2 instead of staying at 5); and the web variant's
confirm branch releases nothing at all (the reservation stays at 8). -/
theorem c3_pending_release_repeats_on_reconciliation :
    ((Desktop.updatePendingTransactions [c3Wallet] [c3P1, c3P2] [c3Block]
        0).1.map (·.pending_send)) = [5] ∧
    ((Desktop.updatePendingTransactions [c3Wallet] [c3P1, c3P2] [c3Block]
        0).2.map (·.status)) = ["confirmed", "pending"] ∧
    ((Desktop.updatePendingTransactions
        (Desktop.updatePendingTransactions [c3Wallet] [c3P1, c3P2] [c3Block]
          0).1
        (Desktop.updatePendingTransactions [c3Wallet] [c3P1, c3P2] [c3Block]
          0).2
        [c3Block] 0).1.map (·.pending_send)) = [2] ∧
    ((Web.updatePendingTransactions [c3Wallet] [c3P1] [c3Block] 0).1.map
        (·.pending_send)) = [8] ∧
    ((Web.updatePendingTransactions [c3Wallet] [c3P1] [c3Block] 0).2.map
        (·.status)) = ["confirmed"] := by
  refine ⟨?_, ?_, ?_, ?_, ?_⟩ <;>
    simp +decide [Desktop.updatePendingTransactions,
      Web.updatePendingTransactions, Desktop.blockchainHashesOf, c3Wallet,
      c3P1, c3P2, c3Block, mkWallet] <;>
    try norm_num [max_def]

/-- **C9** — the claim that the `pending_send` release matches the entry's
`from` address ignoring case is violated: mempool-detected pending entries
store the `from` address lowercased (`lun_c9`), but the release in
`_update_pending_transactions` compares `wallet["address"] ==
pending_tx.get("from")` case-sensitively, so when the entry is confirmed the
reservation of the mixed-case wallet `LUN_C9` is never released, even though
the two addresses agree after lowercasing. -/
theorem c9_pending_release_is_case_sensitive :
    ((Desktop.processMempoolTransactions
        { wallets := [c9Wallet], watched := [], pending := [] }
        [c9MempoolTx] 0).pending.map (·.fromAddr)) = ["lun_c9"] ∧
    ((Desktop.processMempoolTransactions
        { wallets := [c9Wallet], watched := [], pending := [] }
        [c9MempoolTx] 0).wallets.map (·.pending_send)) = [3] ∧
    ((Desktop.updatePendingTransactions
        (Desktop.processMempoolTransactions
          { wallets := [c9Wallet], watched := [], pending := [] }
          [c9MempoolTx] 0).wallets
        (Desktop.processMempoolTransactions
          { wallets := [c9Wallet], watched := [], pending := [] }
          [c9MempoolTx] 0).pending
        [c9Block] 0).2.map (·.status)) = ["confirmed"] ∧
    ((Desktop.updatePendingTransactions
        (Desktop.processMempoolTransactions
          { wallets := [c9Wallet], watched := [], pending := [] }
          [c9MempoolTx] 0).wallets
        (Desktop.processMempoolTransactions
          { wallets := [c9Wallet], watched := [], pending := [] }
          [c9MempoolTx] 0).pending
        [c9Block] 0).1.map (·.pending_send)) = [3] ∧
    lowerStr "LUN_C9" = lowerStr "lun_c9" := by
  refine ⟨by decide, ?_, by decide, ?_, by decide⟩ <;>
    simp +decide [Desktop.processMempoolTransactions,
      Desktop.updatePendingTransactions, Desktop.blockchainHashesOf,
      c9Wallet, c9MempoolTx, c9Block, mkWallet, lowerStr, pyOr]

/-- **C6** — `send_transaction` fails without touching any state whenever
`balance - pending_send < amount + 0.00001`, and the emitted
insufficient-balance error carries both the available and the required
figures. -/
theorem c6_insufficient_balance_send_fails (st : Desktop.SendState)
    (toAddress : String) (amount now : Amount) (txHash : String)
    (broadcastStatus : Option Nat)
    (h : st.wallet.balance - st.wallet.pending_send < amount + Desktop.fixedFee) :
    Desktop.sendTransaction st toAddress amount now txHash broadcastStatus =
      { ok := false
        error := some (.insufficientBalance
          (st.wallet.balance - st.wallet.pending_send)
          (amount + Desktop.fixedFee))
        state := st, saved := false } := by
  simp only [Desktop.sendTransaction]
  rw [if_pos h]

/-- Witness for C6: the spec's scenario — balance 10, pending 0, sending
10.00001 — fails with the insufficient-balance error carrying available 10
and required 10.00002, leaving the state unchanged. -/
theorem c6_insufficient_balance_send_fails_witness :
    ((mkWallet "LUN_c6" 10 0 []).balance
        - (mkWallet "LUN_c6" 10 0 []).pending_send
      < 1000001 / 100000 + Desktop.fixedFee) ∧
    Desktop.sendTransaction
        { wallet := mkWallet "LUN_c6" 10 0 [], pending := [], watched := [] }
        "X" (1000001 / 100000) 0 "c6hash" (some 201) =
      { ok := false
        error := some (.insufficientBalance
          ((mkWallet "LUN_c6" 10 0 []).balance
            - (mkWallet "LUN_c6" 10 0 []).pending_send)
          (1000001 / 100000 + Desktop.fixedFee))
        state := { wallet := mkWallet "LUN_c6" 10 0 [], pending := []
                   watched := [] }
        saved := false } :=
  ⟨by norm_num [mkWallet, Desktop.fixedFee],
   c6_insufficient_balance_send_fails
     { wallet := mkWallet "LUN_c6" 10 0 [], pending := [], watched := [] }
     "X" (1000001 / 100000) 0 "c6hash" (some 201)
     (by norm_num [mkWallet, Desktop.fixedFee])⟩

/-- **C7** — whenever the broadcast does not return status 201 (including a
raised exception), `send_transaction` returns failure, surfaces an error, and
leaves the wallet, pending list and watched set unchanged with nothing
persisted. -/
theorem c7_failed_broadcast_mutates_nothing (st : Desktop.SendState)
    (toAddress : String) (amount now : Amount) (txHash : String)
    (broadcastStatus : Option Nat) (h : broadcastStatus ≠ some 201) :
    (Desktop.sendTransaction st toAddress amount now txHash broadcastStatus).ok
        = false ∧
    (Desktop.sendTransaction st toAddress amount now txHash
        broadcastStatus).error.isSome = true ∧
    (Desktop.sendTransaction st toAddress amount now txHash
        broadcastStatus).state = st ∧
    (Desktop.sendTransaction st toAddress amount now txHash
        broadcastStatus).saved = false := by
  cases broadcastStatus with
  | none =>
    simp only [Desktop.sendTransaction]
    split_ifs <;> simp
  | some status =>
    have hs : ¬(status = 201) := by
      intro he
      exact h (by rw [he])
    simp only [Desktop.sendTransaction]
    split_ifs <;> simp_all

/-- Witness for C7: a concrete rejected broadcast (status 400) from a
well-funded wallet fails and changes nothing. -/
theorem c7_failed_broadcast_mutates_nothing_witness :
    ((some 400 : Option Nat) ≠ some 201) ∧
    ((Desktop.sendTransaction
        { wallet := mkWallet "LUN_c7" 50 0 [], pending := [], watched := [] }
        "Y" 1 0 "c7hash" (some 400)).ok = false ∧
     (Desktop.sendTransaction
        { wallet := mkWallet "LUN_c7" 50 0 [], pending := [], watched := [] }
        "Y" 1 0 "c7hash" (some 400)).error.isSome = true ∧
     (Desktop.sendTransaction
        { wallet := mkWallet "LUN_c7" 50 0 [], pending := [], watched := [] }
        "Y" 1 0 "c7hash" (some 400)).state =
       { wallet := mkWallet "LUN_c7" 50 0 [], pending := [], watched := [] } ∧
     (Desktop.sendTransaction
        { wallet := mkWallet "LUN_c7" 50 0 [], pending := [], watched := [] }
        "Y" 1 0 "c7hash" (some 400)).saved = false) :=
  ⟨by decide,
   c7_failed_broadcast_mutates_nothing
     { wallet := mkWallet "LUN_c7" 50 0 [], pending := [], watched := [] }
     "Y" 1 0 "c7hash" (some 400) (by decide)⟩

end LunaWallet
